import Mathlib

/-!
Shallow embedding of the RiskGuard 360 scoring engine
(`scoring_engine/scoring.py`) over exact rational arithmetic, together
with theorems settling the specification claims about it.

Python floats are modelled by `ℚ`; Python's `round(x, n)` (round half to
even on the decimal value) is modelled by `pyRound` / `roundTo`.
-/

namespace RiskGuard

/-- Python's `round` to the nearest integer, ties going to the even
integer (banker's rounding), on exact rationals. -/
def pyRound (x : ℚ) : ℤ :=
  if Int.fract x = 1/2 then (if ⌊x⌋ % 2 = 0 then ⌊x⌋ else ⌊x⌋ + 1) else round x

/-- Python's `round(x, n)`: round to `n` decimal places. -/
def roundTo (x : ℚ) (n : ℕ) : ℚ :=
  (pyRound (x * 10 ^ n) : ℚ) / 10 ^ n

/-- `RiskLevel` enum of `scoring.py`. -/
inductive RiskLevel
  | tres_faible
  | faible
  | modere
  | eleve
  | tres_eleve
  | critique
deriving DecidableEq

/-- The `POIDS` weight table. -/
def poids_ratio_endettement : ℚ := 0.35

/-- The `POIDS` weight table. -/
def poids_historique_paiement : ℚ := 0.30

/-- The `POIDS` weight table. -/
def poids_stabilite_pro : ℚ := 0.20

/-- The `POIDS` weight table. -/
def poids_coherence_montant : ℚ := 0.15

/-- `SEUILS_RISQUE`: the ordered band table (insertion order of the
Python dict). -/
def SEUILS_RISQUE : List (RiskLevel × ℚ × ℚ) :=
  [(.tres_faible, 80, 100),
   (.faible, 65, 80),
   (.modere, 50, 65),
   (.eleve, 35, 50),
   (.tres_eleve, 20, 35),
   (.critique, 0, 20)]

/-- The band-selection loop of `calculer_score_risque` (step 4): scan the
table in order, keep the first band containing the score, default
`CRITIQUE`. -/
def chercherNiveau (score : ℚ) : List (RiskLevel × ℚ × ℚ) → RiskLevel
  | [] => .critique
  | (niveau, seuil_bas, seuil_haut) :: rest =>
      if seuil_bas ≤ score ∧ score ≤ seuil_haut then niveau
      else chercherNiveau score rest

/-- Professions appearing in `SEUILS_MONTANT_PROFIL`; `autre` stands for
any string outside the table (handled by the `.get` default). -/
inductive Profession
  | etudiant
  | salarie_junior
  | salarie_confirme
  | salarie_senior
  | entrepreneur
  | retraite
  | entreprise
  | autre
deriving DecidableEq

/-- `SEUILS_MONTANT_PROFIL.get(profession, 10_000_000)` (FCFA). -/
def SEUILS_MONTANT_PROFIL : Profession → ℚ
  | .etudiant => 500000
  | .salarie_junior => 5000000
  | .salarie_confirme => 20000000
  | .salarie_senior => 50000000
  | .entrepreneur => 30000000
  | .retraite => 10000000
  | .entreprise => 200000000
  | .autre => 10000000

/-- Client type (`type_client`): the CLI admits exactly these two. -/
inductive TypeClient
  | particulier
  | entreprise
deriving DecidableEq

/-- `ProfilClient` dataclass. -/
structure ProfilClient where
  nom : String := ""
  prenom : String := ""
  type_client : TypeClient
  profession : Profession
  revenu_mensuel : ℚ
  charges_mensuelles : ℚ
  dettes_existantes : ℚ
  anciennete_emploi : ℚ
  incidents_paiement_12m : ℤ
  montant_demande : ℚ
  duree_pret_mois : ℤ
  age : ℤ := 30
  apport_personnel : ℚ := 0
  numero_cni : String := ""

/-- The piecewise score mapping of `calculer_score_endettement`
(lines 158–167), before rounding. -/
def score_ratio_endettement (ratio : ℚ) : ℚ :=
  if ratio ≤ 0.20 then 100
  else if ratio ≤ 0.33 then 100 - ((ratio - 0.20) / 0.13) * 30
  else if ratio ≤ 0.45 then 70 - ((ratio - 0.33) / 0.12) * 30
  else if ratio ≤ 0.60 then 40 - ((ratio - 0.45) / 0.15) * 25
  else max 0 (15 - ((ratio - 0.60) / 0.40) * 15)

/-- The per-band formulas, named for the boundary-agreement statements:
band `ratio ≤ 0.20`. -/
def bande_endettement_1 (_ratio : ℚ) : ℚ := 100

/-- Band `0.20 < ratio ≤ 0.33`. -/
def bande_endettement_2 (ratio : ℚ) : ℚ := 100 - ((ratio - 0.20) / 0.13) * 30

/-- Band `0.33 < ratio ≤ 0.45`. -/
def bande_endettement_3 (ratio : ℚ) : ℚ := 70 - ((ratio - 0.33) / 0.12) * 30

/-- Band `0.45 < ratio ≤ 0.60`. -/
def bande_endettement_4 (ratio : ℚ) : ℚ := 40 - ((ratio - 0.45) / 0.15) * 25

/-- Band `ratio > 0.60`, floored at 0. -/
def bande_endettement_5 (ratio : ℚ) : ℚ := max 0 (15 - ((ratio - 0.60) / 0.40) * 15)

/-- The annuity installment used by `calculer_score_endettement`. -/
def mensualite_endettement (montant_demande : ℚ) (duree_mois : ℤ) : ℚ :=
  let taux_mensuel : ℚ := 0.15 / 12
  if taux_mensuel > 0 ∧ duree_mois > 0 then
    montant_demande * (taux_mensuel * (1 + taux_mensuel) ^ duree_mois.toNat) /
      ((1 + taux_mensuel) ^ duree_mois.toNat - 1)
  else
    montant_demande / ((max duree_mois 1 : ℤ) : ℚ)

/-- `calculer_score_endettement`: returns `(score, ratio)`. -/
def calculer_score_endettement (revenu charges dettes montant_demande : ℚ)
    (duree_mois : ℤ) : ℚ × ℚ :=
  if revenu ≤ 0 then (0, 1)
  else
    let mensualite := mensualite_endettement montant_demande duree_mois
    let ratio := (charges + dettes + mensualite) / revenu
    (roundTo (score_ratio_endettement ratio) 2, roundTo ratio 4)

/-- `calculer_score_historique`. -/
def calculer_score_historique (incidents : ℤ) : ℚ :=
  if incidents = 0 then 100
  else if incidents = 1 then 75
  else if incidents = 2 then 50
  else if incidents = 3 then 25
  else max 0 (10 - ((incidents : ℚ) - 4) * 2.5)

/-- `calculer_score_stabilite`. -/
def calculer_score_stabilite (anciennete : ℚ) (age : ℤ) : ℚ :=
  let score : ℚ :=
    if anciennete ≥ 10 then 100
    else if anciennete ≥ 5 then 85 + ((anciennete - 5) / 5) * 15
    else if anciennete ≥ 2 then 65 + ((anciennete - 2) / 3) * 20
    else if anciennete ≥ 1 then 45 + (anciennete - 1) * 20
    else 20 + anciennete * 25
  let score :=
    if 30 ≤ age ∧ age ≤ 55 then min 100 (score + 5)
    else if age < 23 ∨ age > 65 then max 0 (score - 10)
    else score
  roundTo (min 100 (max 0 score)) 2

/-- The alert messages `calculer_score_coherence` can append, one
constructor per `alertes.append(...)` site, in source order. -/
inductive AlerteCoherence
  | montant_tres_superieur_seuil
  | montant_superieur_seuil
  | montant_revenu_critique
  | montant_revenu_attention
  | duree_tres_longue
  | age_fin_pret
deriving DecidableEq

/-- The profession threshold used by `calculer_score_coherence`
(business clients force the `entreprise` threshold). -/
def seuil_coherence (profil : ProfilClient) : ℚ :=
  let seuil := SEUILS_MONTANT_PROFIL profil.profession
  if profil.type_client = .entreprise then SEUILS_MONTANT_PROFIL .entreprise
  else seuil

/-- First rule block of `calculer_score_coherence` (amount vs profession
threshold): returns `(deduction, alerts)`. -/
def coherence_regle_seuil (profil : ProfilClient) : ℚ × List AlerteCoherence :=
  let seuil := seuil_coherence profil
  let ratio_seuil := if seuil > 0 then profil.montant_demande / seuil else 999
  if ratio_seuil > 2 then (60, [.montant_tres_superieur_seuil])
  else if ratio_seuil > 1 then (30, [.montant_superieur_seuil])
  else (0, [])

/-- Second rule block of `calculer_score_coherence` (amount vs monthly
income, dividing by `max(revenu, 1)`). -/
def coherence_regle_revenu (profil : ProfilClient) : ℚ × List AlerteCoherence :=
  let ratio_revenu := profil.montant_demande / max profil.revenu_mensuel 1
  if ratio_revenu > 60 then (30, [.montant_revenu_critique])
  else if ratio_revenu > 48 then (15, [.montant_revenu_attention])
  else (0, [])

/-- Third rule block of `calculer_score_coherence` (tenor > 84 months). -/
def coherence_regle_duree (profil : ProfilClient) : ℚ × List AlerteCoherence :=
  if profil.duree_pret_mois > 84 then (10, [.duree_tres_longue]) else (0, [])

/-- Fourth rule block of `calculer_score_coherence` (age at maturity
`age + duree/12 > 70`). -/
def coherence_regle_age (profil : ProfilClient) : ℚ × List AlerteCoherence :=
  let age_fin_pret : ℚ := (profil.age : ℚ) + (profil.duree_pret_mois : ℚ) / 12
  if age_fin_pret > 70 then (15, [.age_fin_pret]) else (0, [])

/-- `calculer_score_coherence`: start at 100, apply the four deductions
in order, floor at 0, round to 2 decimals; alerts in evaluation order. -/
def calculer_score_coherence (profil : ProfilClient) : ℚ × List AlerteCoherence :=
  let r1 := coherence_regle_seuil profil
  let r2 := coherence_regle_revenu profil
  let r3 := coherence_regle_duree profil
  let r4 := coherence_regle_age profil
  let score : ℚ := 100 - r1.1 - r2.1 - r3.1 - r4.1
  (roundTo (max 0 score) 2, r1.2 ++ r2.2 ++ r3.2 ++ r4.2)

/-- The alert messages `calculer_score_fraude` can append, one
constructor per `alertes_fraude.append(...)` site, in source order. -/
inductive AlerteFraude
  | incoherence_majeure
  | montant_demesure
  | revenu_anormal
  | aucune_charge
  | incidents_et_montant
deriving DecidableEq

/-- Rule 1 of `calculer_score_fraude` (coherence-score incoherence). -/
def fraude_regle_coherence (score_coherence : ℚ) : ℚ × List AlerteFraude :=
  if score_coherence ≤ 20 then (40, [.incoherence_majeure])
  else if score_coherence ≤ 50 then (20, [])
  else (0, [])

/-- Rule 2 of `calculer_score_fraude` (amount vs income), skipped
entirely when `revenu_mensuel ≤ 0`. -/
def fraude_regle_montant (profil : ProfilClient) : ℚ × List AlerteFraude :=
  if profil.revenu_mensuel > 0 then
    let ratio := profil.montant_demande / profil.revenu_mensuel
    if ratio > 100 then (30, [.montant_demesure])
    else if ratio > 60 then (15, [])
    else (0, [])
  else (0, [])

/-- The `seuils_revenus` income-sanity table of `calculer_score_fraude`:
defined only for a subset of professions. -/
def seuils_revenus : Profession → Option ℚ
  | .etudiant => some 200000
  | .salarie_junior => some 500000
  | .salarie_confirme => some 2000000
  | .retraite => some 1000000
  | _ => none

/-- Rule 3 of `calculer_score_fraude` (declared income > 3× the
profession sanity threshold, when the profession is in the table). -/
def fraude_regle_revenu (profil : ProfilClient) : ℚ × List AlerteFraude :=
  match seuils_revenus profil.profession with
  | some seuil_rev =>
      if profil.revenu_mensuel > seuil_rev * 3 then (15, [.revenu_anormal])
      else (0, [])
  | none => (0, [])

/-- Rule 4 of `calculer_score_fraude` (no charges despite significant
income). -/
def fraude_regle_charges (profil : ProfilClient) : ℚ × List AlerteFraude :=
  if profil.revenu_mensuel > 300000 ∧ profil.charges_mensuelles = 0 then
    (10, [.aucune_charge])
  else (0, [])

/-- Rule 5 of `calculer_score_fraude` (≥3 incidents and amount over
10,000,000). -/
def fraude_regle_incidents (profil : ProfilClient) : ℚ × List AlerteFraude :=
  if profil.incidents_paiement_12m ≥ 3 ∧ profil.montant_demande > 10000000 then
    (15, [.incidents_et_montant])
  else (0, [])

/-- `calculer_score_fraude`: additive rules, capped at 100, rounded to 2
decimals; alerts in evaluation order. -/
def calculer_score_fraude (profil : ProfilClient) (score_coherence : ℚ) :
    ℚ × List AlerteFraude :=
  let r1 := fraude_regle_coherence score_coherence
  let r2 := fraude_regle_montant profil
  let r3 := fraude_regle_revenu profil
  let r4 := fraude_regle_charges profil
  let r5 := fraude_regle_incidents profil
  let score := r1.1 + r2.1 + r3.1 + r4.1 + r5.1
  (roundTo (min 100 score) 2, r1.2 ++ r2.2 ++ r3.2 ++ r4.2 ++ r5.2)

/-- An entry of the aggregated alert list of `calculer_score_risque`:
either a coherence alert, one of the two standalone alerts appended by
the aggregator, or a fraud alert carrying the `"🔍 FRAUDE: "` marker. -/
inductive Alerte
  | coh : AlerteCoherence → Alerte
  | ratio_endettement_critique
  | historique_preoccupant
  | fraude : AlerteFraude → Alerte
deriving DecidableEq

/-- `ResultatScoring` dataclass (the fields the claims are about). -/
structure ResultatScoring where
  score_global : ℚ
  niveau_risque : RiskLevel
  score_endettement : ℚ
  score_historique : ℚ
  score_stabilite : ℚ
  score_coherence : ℚ
  score_fraude : ℚ
  ratio_endettement : ℚ
  alertes : List Alerte
  alerte_fraude : Bool

/-- `calculer_score_risque`: the main scoring entry point. -/
def calculer_score_risque (profil : ProfilClient) : ResultatScoring :=
  let pe := calculer_score_endettement profil.revenu_mensuel
    profil.charges_mensuelles profil.dettes_existantes
    profil.montant_demande profil.duree_pret_mois
  let score_endettement := pe.1
  let ratio := pe.2
  let score_historique := calculer_score_historique profil.incidents_paiement_12m
  let score_stabilite := calculer_score_stabilite profil.anciennete_emploi profil.age
  let pc := calculer_score_coherence profil
  let score_coherence := pc.1
  let alertes_coherence := pc.2
  let score_global :=
    score_endettement * poids_ratio_endettement +
    score_historique * poids_historique_paiement +
    score_stabilite * poids_stabilite_pro +
    score_coherence * poids_coherence_montant
  let pf := calculer_score_fraude profil score_coherence
  let score_fraude := pf.1
  let alertes_fraude := pf.2
  let niveau_risque := chercherNiveau score_global SEUILS_RISQUE
  let alertes := alertes_coherence.map Alerte.coh
  let alertes :=
    if ratio > 0.50 then alertes ++ [Alerte.ratio_endettement_critique] else alertes
  let alertes :=
    if profil.incidents_paiement_12m ≥ 3 then
      alertes ++ [Alerte.historique_preoccupant]
    else alertes
  let alertes := alertes ++ alertes_fraude.map Alerte.fraude
  let alerte_fraude := decide (score_fraude ≥ 50)
  let alerte_fraude := if score_coherence ≤ 20 then true else alerte_fraude
  let alerte_fraude :=
    if profil.revenu_mensuel > 0 ∧
        profil.montant_demande > 100 * profil.revenu_mensuel then true
    else alerte_fraude
  { score_global := roundTo score_global 2
    niveau_risque := niveau_risque
    score_endettement := score_endettement
    score_historique := score_historique
    score_stabilite := score_stabilite
    score_coherence := score_coherence
    score_fraude := score_fraude
    ratio_endettement := ratio
    alertes := alertes
    alerte_fraude := alerte_fraude }

/-- `simuler_pret` result (the fields the claims are about; the partial
amortization table is omitted). -/
structure SimulationPret where
  mensualite : ℚ
  cout_total : ℚ
  cout_credit : ℚ
  capacite_remboursement : ℚ
  ratio_endettement : ℚ
  eligible : Option Bool

/-- `simuler_pret` (amounts kept unrounded; the Python function rounds
only for display in the returned dict). -/
def simuler_pret (montant : ℚ) (duree_mois : ℤ)
    (taux_annuel revenu_mensuel charges : ℚ) : SimulationPret :=
  let taux_mensuel := taux_annuel / 12
  let mensualite :=
    if taux_mensuel > 0 ∧ duree_mois > 0 then
      montant * (taux_mensuel * (1 + taux_mensuel) ^ duree_mois.toNat) /
        ((1 + taux_mensuel) ^ duree_mois.toNat - 1)
    else
      montant / ((max duree_mois 1 : ℤ) : ℚ)
  let cout_total := mensualite * (duree_mois : ℚ)
  let cout_credit := cout_total - montant
  let capacite := if revenu_mensuel > 0 then revenu_mensuel - charges else 0
  let ratio_endettement := if revenu_mensuel > 0 then mensualite / revenu_mensuel else 0
  { mensualite := mensualite
    cout_total := cout_total
    cout_credit := cout_credit
    capacite_remboursement := capacite
    ratio_endettement := ratio_endettement
    eligible :=
      if revenu_mensuel > 0 then some (decide (ratio_endettement < 0.33)) else none }

/-! ### Bounds for the rounding function -/

lemma pyRound_nonneg {x : ℚ} (hx : 0 ≤ x) : 0 ≤ pyRound x := by
  unfold pyRound
  split_ifs with ht hev
  · exact Int.floor_nonneg.mpr hx
  · have h0 : 0 ≤ ⌊x⌋ := Int.floor_nonneg.mpr hx
    omega
  · rw [round_eq]
    exact Int.floor_nonneg.mpr (by linarith)

lemma pyRound_le {x : ℚ} {n : ℤ} (hx : x ≤ (n : ℚ)) : pyRound x ≤ n := by
  unfold pyRound
  split_ifs with ht hev
  · exact_mod_cast (Int.floor_le_floor hx).trans_eq (Int.floor_intCast n)
  · have hxf : (⌊x⌋ : ℚ) + 1/2 = x := by
      have := Int.floor_add_fract x
      rw [ht] at this
      linarith
    have hlt : (⌊x⌋ : ℚ) < (n : ℚ) := by linarith
    have : ⌊x⌋ < n := by exact_mod_cast hlt
    omega
  · rw [round_eq]
    have h1 : ⌊x + 1/2⌋ ≤ ⌊(n : ℚ) + 1/2⌋ := Int.floor_le_floor (by linarith)
    have h2 : ⌊(n : ℚ) + 1/2⌋ = n := by
      rw [show ((n : ℚ) + 1/2) = (1/2 : ℚ) + n by ring, Int.floor_add_int]
      norm_num
    omega

lemma roundTo_nonneg {x : ℚ} (hx : 0 ≤ x) (n : ℕ) : 0 ≤ roundTo x n := by
  unfold roundTo
  have h1 : (0 : ℤ) ≤ pyRound (x * 10 ^ n) :=
    pyRound_nonneg (by positivity)
  have h2 : (0 : ℚ) ≤ (pyRound (x * 10 ^ n) : ℚ) := by exact_mod_cast h1
  positivity

lemma roundTo_le {x : ℚ} {m : ℤ} (hx : x ≤ (m : ℚ)) (n : ℕ) :
    roundTo x n ≤ (m : ℚ) := by
  unfold roundTo
  have hp : (0 : ℚ) < 10 ^ n := by positivity
  have h1 : pyRound (x * 10 ^ n) ≤ m * 10 ^ n := by
    refine pyRound_le ?_
    push_cast
    calc x * 10 ^ n ≤ (m : ℚ) * 10 ^ n := by
          exact mul_le_mul_of_nonneg_right hx (le_of_lt hp)
      _ = _ := by ring
  rw [div_le_iff₀ hp]
  calc ((pyRound (x * 10 ^ n) : ℚ)) ≤ ((m * 10 ^ n : ℤ) : ℚ) := by exact_mod_cast h1
    _ = (m : ℚ) * 10 ^ n := by push_cast; ring

lemma pyRound_eq {x : ℚ} {z : ℤ} (h1 : (z : ℚ) - 1/2 < x) (h2 : x < (z : ℚ) + 1/2) :
    pyRound x = z := by
  have hfr : Int.fract x ≠ 1/2 := by
    intro ht
    have hx : x = (⌊x⌋ : ℚ) + 1/2 := by
      have hadd := Int.floor_add_fract x
      rw [ht] at hadd
      linarith
    have hlt : ((z - 1 : ℤ) : ℚ) < (⌊x⌋ : ℚ) := by push_cast; linarith
    have hgt : (⌊x⌋ : ℚ) < (z : ℚ) := by linarith
    have h1' : (z : ℤ) - 1 < ⌊x⌋ := by exact_mod_cast hlt
    have h2' : ⌊x⌋ < z := by exact_mod_cast hgt
    omega
  unfold pyRound
  rw [if_neg hfr, round_eq, Int.floor_eq_iff]
  constructor
  · linarith
  · linarith

lemma roundTo_eq {x : ℚ} {n : ℕ} {z : ℤ} (h1 : (z : ℚ) - 1/2 < x * 10 ^ n)
    (h2 : x * 10 ^ n < (z : ℚ) + 1/2) : roundTo x n = (z : ℚ) / 10 ^ n := by
  unfold roundTo
  rw [pyRound_eq h1 h2]

/-! ### Claim theorems -/

/-- C4: whenever monthly income is ≤ 0, `calculer_score_endettement`
returns score exactly 0 and ratio exactly 1, whatever the charges,
debts, requested amount and tenor are, without failing. -/
theorem endettement_revenu_non_positif
    (revenu charges dettes montant_demande : ℚ) (duree_mois : ℤ)
    (h : revenu ≤ 0) :
    calculer_score_endettement revenu charges dettes montant_demande duree_mois
      = (0, 1) := by
  simp [calculer_score_endettement, h]

/-- Witness for C4 at income 0 (with nonzero other arguments). -/
theorem endettement_revenu_non_positif_witness :
    (0 : ℚ) ≤ 0 ∧
      calculer_score_endettement 0 250000 80000 5000000 36 = (0, 1) :=
  ⟨le_refl 0, endettement_revenu_non_positif 0 250000 80000 5000000 36 (le_refl 0)⟩

/-- C1: the global score of `calculer_score_risque` is exactly the
weighted sum `0.35·endettement + 0.30·historique + 0.20·stabilite +
0.15·coherence` of the four component scores of the result, rounded to
2 decimals. -/
theorem score_global_somme_ponderee (profil : ProfilClient) :
    (calculer_score_risque profil).score_global =
      roundTo (0.35 * (calculer_score_risque profil).score_endettement +
               0.30 * (calculer_score_risque profil).score_historique +
               0.20 * (calculer_score_risque profil).score_stabilite +
               0.15 * (calculer_score_risque profil).score_coherence) 2 := by
  simp only [calculer_score_risque, poids_ratio_endettement,
    poids_historique_paiement, poids_stabilite_pro, poids_coherence_montant]
  congr 1
  ring

/-- C8: `simuler_pret` returns a tri-state eligibility: `none` when the
supplied monthly income is ≤ 0, and `some ((mensualite / revenu) < 0.33)`
when it is positive. -/
theorem simuler_pret_eligibilite (montant : ℚ) (duree_mois : ℤ)
    (taux_annuel revenu_mensuel charges : ℚ) :
    (revenu_mensuel ≤ 0 →
      (simuler_pret montant duree_mois taux_annuel revenu_mensuel charges).eligible
        = none) ∧
    (0 < revenu_mensuel →
      (simuler_pret montant duree_mois taux_annuel revenu_mensuel charges).eligible
        = some (decide
            ((simuler_pret montant duree_mois taux_annuel revenu_mensuel
              charges).mensualite / revenu_mensuel < 0.33))) := by
  constructor
  · intro h
    simp [simuler_pret, not_lt.mpr h]
  · intro h
    simp only [simuler_pret, if_pos h]

/-- Witness for C8: income 0 gives `none`; a positive income gives the
boolean installment-ratio test. -/
theorem simuler_pret_eligibilite_witness :
    ((0 : ℚ) ≤ 0 ∧
      (simuler_pret 1000000 12 0.15 0 0).eligible = none) ∧
    ((0 : ℚ) < 100 ∧
      (simuler_pret 1200 0 0.15 100 0).eligible =
        some (decide ((simuler_pret 1200 0 0.15 100 0).mensualite / 100 < 0.33))) :=
  ⟨⟨le_refl 0, (simuler_pret_eligibilite 1000000 12 0.15 0 0).1 (le_refl 0)⟩,
   ⟨by norm_num, (simuler_pret_eligibilite 1200 0 0.15 100 0).2 (by norm_num)⟩⟩

/-- C2: the band-selection loop realizes the six ordered bands
[80,100]→très faible, [65,80)→faible, [50,65)→modéré, [35,50)→élevé,
[20,35)→très élevé, [0,20)→critique, and on each shared boundary value
(80, 65, 50, 35, 20) the higher band wins. -/
theorem niveau_risque_bandes (s : ℚ) (h0 : 0 ≤ s) (h100 : s ≤ 100) :
    chercherNiveau s SEUILS_RISQUE =
      (if 80 ≤ s then RiskLevel.tres_faible
       else if 65 ≤ s then RiskLevel.faible
       else if 50 ≤ s then RiskLevel.modere
       else if 35 ≤ s then RiskLevel.eleve
       else if 20 ≤ s then RiskLevel.tres_eleve
       else RiskLevel.critique) := by
  simp only [SEUILS_RISQUE, chercherNiveau]
  by_cases hb1 : 80 ≤ s
  · simp [hb1, h100]
  · have hb1' : s ≤ 80 := le_of_lt (lt_of_not_le hb1)
    by_cases hb2 : 65 ≤ s
    · simp [hb1, hb2, hb1']
    · have hb2' : s ≤ 65 := le_of_lt (lt_of_not_le hb2)
      by_cases hb3 : 50 ≤ s
      · simp [hb1, hb2, hb3, hb2']
      · have hb3' : s ≤ 50 := le_of_lt (lt_of_not_le hb3)
        by_cases hb4 : 35 ≤ s
        · simp [hb1, hb2, hb3, hb4, hb3']
        · have hb4' : s ≤ 35 := le_of_lt (lt_of_not_le hb4)
          by_cases hb5 : 20 ≤ s
          · simp [hb1, hb2, hb3, hb4, hb5, hb4']
          · have hb5' : s ≤ 20 := le_of_lt (lt_of_not_le hb5)
            simp [hb1, hb2, hb3, hb4, hb5, h0, hb5']

/-- Witness for C2 at the shared boundary 80: the higher band is
selected. -/
theorem niveau_risque_bandes_witness :
    chercherNiveau 80 SEUILS_RISQUE = RiskLevel.tres_faible := by
  have h := niveau_risque_bandes 80 (by norm_num) (by norm_num)
  norm_num at h
  exact h

/-- C3: the fraud flag of `calculer_score_risque` is true exactly when
the fraud score is ≥ 50, or the coherence score is ≤ 20, or the income
is positive and the requested amount exceeds 100 times the income. -/
theorem alerte_fraude_caracterisation (profil : ProfilClient) :
    (calculer_score_risque profil).alerte_fraude = true ↔
      (50 ≤ (calculer_score_risque profil).score_fraude ∨
       (calculer_score_risque profil).score_coherence ≤ 20 ∨
       (0 < profil.revenu_mensuel ∧
        100 * profil.revenu_mensuel < profil.montant_demande)) := by
  simp only [calculer_score_risque, ge_iff_le]
  split_ifs with h1 h2 <;>
    simp [decide_eq_true_iff] <;>
    tauto

/-- Each fraud rule contributes a nonnegative amount. -/
lemma fraude_regles_nonneg (profil : ProfilClient) (score_coherence : ℚ) :
    0 ≤ (fraude_regle_coherence score_coherence).1 ∧
    0 ≤ (fraude_regle_montant profil).1 ∧
    0 ≤ (fraude_regle_revenu profil).1 ∧
    0 ≤ (fraude_regle_charges profil).1 ∧
    0 ≤ (fraude_regle_incidents profil).1 := by
  unfold fraude_regle_coherence fraude_regle_montant fraude_regle_revenu
    fraude_regle_charges fraude_regle_incidents
  refine ⟨?_, ?_, ?_, ?_, ?_⟩ <;> repeat' split <;> norm_num

/-- A profile that fires all five fraud rules at once: student profile
with declared income 800,000 (4× the 200,000 student sanity threshold),
no charges, 5 payment incidents, requesting 120,000,000 (150× income). -/
def profil_fraude_maximale : ProfilClient :=
  { type_client := .particulier
    profession := .etudiant
    revenu_mensuel := 800000
    charges_mensuelles := 0
    dettes_existantes := 0
    anciennete_emploi := 1
    incidents_paiement_12m := 5
    montant_demande := 120000000
    duree_pret_mois := 36
    age := 30 }

/-- C5: the fraud score is always within [0,100] — the additive rule
contributions (at most 40+30+15+10+15 = 110) are capped at 100 — and an
input firing all five rules at once (coherence 10, amount/income ratio
150, income 4× the profession sanity threshold, zero charges, 5
incidents, amount above 10,000,000) yields exactly 100. -/
theorem score_fraude_borne :
    (∀ (profil : ProfilClient) (score_coherence : ℚ),
       0 ≤ (calculer_score_fraude profil score_coherence).1 ∧
       (calculer_score_fraude profil score_coherence).1 ≤ 100) ∧
    (calculer_score_fraude profil_fraude_maximale 10).1 = 100 := by
  constructor
  · intro profil score_coherence
    obtain ⟨h1, h2, h3, h4, h5⟩ := fraude_regles_nonneg profil score_coherence
    unfold calculer_score_fraude
    constructor
    · exact roundTo_nonneg (le_min (by norm_num) (by linarith)) 2
    · exact_mod_cast roundTo_le (min_le_left 100 _) 2
  · norm_num [calculer_score_fraude, fraude_regle_coherence, fraude_regle_montant,
      fraude_regle_revenu, fraude_regle_charges, fraude_regle_incidents,
      seuils_revenus, profil_fraude_maximale, min_def]
    rw [@roundTo_eq 100 2 10000 (by norm_num) (by norm_num)]
    norm_num

/-- The piecewise debt-ratio score map is non-increasing (proved on all
of ℚ; the claim needs it on (0,1]). -/
lemma score_ratio_endettement_anti {r1 r2 : ℚ} (h : r1 ≤ r2) :
    score_ratio_endettement r2 ≤ score_ratio_endettement r1 := by
  unfold score_ratio_endettement
  have e2 : ∀ r : ℚ, 100 - (r - 0.20) / 0.13 * 30 = 100 + 600/13 - r * (3000/13) := by
    intro r
    ring
  have e3 : ∀ r : ℚ, 70 - (r - 0.33) / 0.12 * 30 = 70 + 82.5 - r * 250 := by
    intro r
    ring
  have e4 : ∀ r : ℚ, 40 - (r - 0.45) / 0.15 * 25 = 40 + 75 - r * (500/3) := by
    intro r
    ring
  have e5 : ∀ r : ℚ, 15 - (r - 0.60) / 0.40 * 15 = 15 + 22.5 - r * 37.5 := by
    intro r
    ring
  simp only [e2, e3, e4, e5]
  split_ifs <;>
    first
      | linarith
      | (refine max_le (by linarith) (by linarith))
      | (exact max_le_max le_rfl (by linarith))

/-- C6: on (0,1] the debt-ratio score mapping is monotonically
non-increasing, the adjacent band formulas agree at each boundary
(0.20 ↦ 100, 0.33 ↦ 70, 0.45 ↦ 40, 0.60 ↦ 15), and the last band is
floored at 0. -/
theorem score_endettement_monotone_continu :
    (∀ r1 r2 : ℚ, 0 < r1 → r1 ≤ r2 → r2 ≤ 1 →
       score_ratio_endettement r2 ≤ score_ratio_endettement r1) ∧
    bande_endettement_1 0.20 = 100 ∧ bande_endettement_2 0.20 = 100 ∧
    bande_endettement_2 0.33 = 70 ∧ bande_endettement_3 0.33 = 70 ∧
    bande_endettement_3 0.45 = 40 ∧ bande_endettement_4 0.45 = 40 ∧
    bande_endettement_4 0.60 = 15 ∧ bande_endettement_5 0.60 = 15 ∧
    (∀ r : ℚ, 0 ≤ bande_endettement_5 r) := by
  refine ⟨fun r1 r2 _ h _ => score_ratio_endettement_anti h, ?_, ?_, ?_, ?_, ?_, ?_, ?_, ?_, fun r => le_max_left 0 _⟩ <;>
    norm_num [bande_endettement_1, bande_endettement_2, bande_endettement_3,
      bande_endettement_4, bande_endettement_5]

/-- Witness for C6: instantiates the monotonicity conjunct at the
concrete pair 0.25 ≤ 0.50. -/
theorem score_endettement_monotone_continu_witness :
    (0 : ℚ) < 0.25 ∧ (0.25 : ℚ) ≤ 0.50 ∧ (0.50 : ℚ) ≤ 1 ∧
      score_ratio_endettement 0.50 ≤ score_ratio_endettement 0.25 :=
  ⟨by norm_num, by norm_num, by norm_num,
   score_endettement_monotone_continu.1 0.25 0.50 (by norm_num) (by norm_num)
     (by norm_num)⟩

/-- C7: the aggregated alert list is exactly the coherence alerts (in
evaluation order), then one debt-ratio-critical alert iff the returned
debt ratio exceeds 0.50, then one incident-count alert iff incidents ≥ 3,
then the fraud alerts each carrying the fraud marker; the result is a
pure function of the input, so the order is identical on every call. -/
theorem alertes_ordre (profil : ProfilClient) :
    (calculer_score_risque profil).alertes =
      (calculer_score_coherence profil).2.map Alerte.coh ++
      (if (calculer_score_risque profil).ratio_endettement > 0.50 then
        [Alerte.ratio_endettement_critique] else []) ++
      (if profil.incidents_paiement_12m ≥ 3 then
        [Alerte.historique_preoccupant] else []) ++
      ((calculer_score_fraude profil (calculer_score_coherence profil).1).2.map
        Alerte.fraude) := by
  simp only [calculer_score_risque]
  split_ifs <;> simp [List.append_assoc]

/-- C10: with income ≤ 0 the coherence scorer still applies the
amount-vs-income rule through `max(revenu, 1) = 1`, so any amount above
60 takes the −30 critical deduction and emits its alert, while the fraud
scorer skips its amount-vs-income rule entirely (0 contribution, no
alert): the two components treat non-positive income asymmetrically. -/
theorem revenu_nul_asymetrie (profil : ProfilClient)
    (hrev : profil.revenu_mensuel ≤ 0) (hmon : 60 < profil.montant_demande) :
    coherence_regle_revenu profil = (30, [.montant_revenu_critique]) ∧
    AlerteCoherence.montant_revenu_critique ∈ (calculer_score_coherence profil).2 ∧
    fraude_regle_montant profil = (0, []) := by
  have hmax : max profil.revenu_mensuel 1 = 1 := max_eq_right (by linarith)
  have hreg : coherence_regle_revenu profil = (30, [.montant_revenu_critique]) := by
    unfold coherence_regle_revenu
    rw [hmax, div_one, if_pos hmon]
  refine ⟨hreg, ?_, ?_⟩
  · unfold calculer_score_coherence
    simp [hreg]
  · unfold fraude_regle_montant
    rw [if_neg (not_lt.mpr hrev)]

/-- A profile with zero income requesting 100 (above the 60× deduction
threshold once the divisor is clamped to 1). -/
def profil_revenu_nul : ProfilClient :=
  { type_client := .particulier
    profession := .salarie_junior
    revenu_mensuel := 0
    charges_mensuelles := 0
    dettes_existantes := 0
    anciennete_emploi := 2
    incidents_paiement_12m := 0
    montant_demande := 100
    duree_pret_mois := 12
    age := 30 }

/-- Witness for C10 at income 0, requested amount 100. -/
theorem revenu_nul_asymetrie_witness :
    profil_revenu_nul.revenu_mensuel ≤ 0 ∧
    60 < profil_revenu_nul.montant_demande ∧
    (coherence_regle_revenu profil_revenu_nul = (30, [.montant_revenu_critique]) ∧
     AlerteCoherence.montant_revenu_critique ∈
       (calculer_score_coherence profil_revenu_nul).2 ∧
     fraude_regle_montant profil_revenu_nul = (0, [])) :=
  ⟨by norm_num [profil_revenu_nul], by norm_num [profil_revenu_nul],
   revenu_nul_asymetrie profil_revenu_nul (by norm_num [profil_revenu_nul])
     (by norm_num [profil_revenu_nul])⟩

/-- A profile whose unrounded weighted sum is 79.9975: component scores
42.85 / 100 / 100 / 100 (debt ratio 0.4386 with a zero requested
amount, so the installment is 0). -/
def profil_seuil_arrondi : ProfilClient :=
  { type_client := .particulier
    profession := .salarie_senior
    revenu_mensuel := 10000
    charges_mensuelles := 4386
    dettes_existantes := 0
    anciennete_emploi := 10
    incidents_paiement_12m := 0
    montant_demande := 0
    duree_pret_mois := 12
    age := 35 }

/-- C9: the tier is selected from the unrounded weighted sum and the
reported global score is rounded afterwards: on this profile the
unrounded sum is 79.9975, the reported score is the boundary value 80
while the carried tier is the lower band's (Faible), and the band table
applied to the reported score would give Très faible instead. -/
theorem arrondi_score_niveau_desaccord :
    (calculer_score_risque profil_seuil_arrondi).score_global = 80 ∧
    (calculer_score_risque profil_seuil_arrondi).niveau_risque = RiskLevel.faible ∧
    chercherNiveau (calculer_score_risque profil_seuil_arrondi).score_global
      SEUILS_RISQUE = RiskLevel.tres_faible := by
  have hmen : mensualite_endettement 0 12 = 0 := by
    unfold mensualite_endettement
    norm_num
  have hend : calculer_score_endettement 10000 4386 0 0 12 = (857/20, 2193/5000) := by
    unfold calculer_score_endettement
    rw [hmen]
    norm_num [score_ratio_endettement]
    rw [@roundTo_eq (857/20 : ℚ) 2 4285 (by norm_num) (by norm_num),
        @roundTo_eq (2193/5000 : ℚ) 4 4386 (by norm_num) (by norm_num)]
    norm_num
  have hhist : calculer_score_historique 0 = 100 := by
    unfold calculer_score_historique
    norm_num
  have hstab : calculer_score_stabilite 10 35 = 100 := by
    unfold calculer_score_stabilite
    norm_num [min_def, max_def]
    rw [@roundTo_eq (100 : ℚ) 2 10000 (by norm_num) (by norm_num)]
    norm_num
  have hseuil : seuil_coherence profil_seuil_arrondi = 50000000 := by
    unfold seuil_coherence
    rw [if_neg (by decide : ¬(profil_seuil_arrondi.type_client = TypeClient.entreprise))]
    norm_num [profil_seuil_arrondi, SEUILS_MONTANT_PROFIL]
  have hr1 : coherence_regle_seuil profil_seuil_arrondi = (0, []) := by
    unfold coherence_regle_seuil
    rw [hseuil]
    norm_num [profil_seuil_arrondi]
  have hr2 : coherence_regle_revenu profil_seuil_arrondi = (0, []) := by
    unfold coherence_regle_revenu
    norm_num [profil_seuil_arrondi, max_def]
  have hr3 : coherence_regle_duree profil_seuil_arrondi = (0, []) := by
    unfold coherence_regle_duree
    norm_num [profil_seuil_arrondi]
  have hr4 : coherence_regle_age profil_seuil_arrondi = (0, []) := by
    unfold coherence_regle_age
    norm_num [profil_seuil_arrondi]
  have hcoh : calculer_score_coherence profil_seuil_arrondi = (100, []) := by
    unfold calculer_score_coherence
    rw [hr1, hr2, hr3, hr4]
    norm_num [max_def]
    rw [@roundTo_eq (100 : ℚ) 2 10000 (by norm_num) (by norm_num)]
    norm_num
  have hend' : calculer_score_endettement profil_seuil_arrondi.revenu_mensuel
      profil_seuil_arrondi.charges_mensuelles profil_seuil_arrondi.dettes_existantes
      profil_seuil_arrondi.montant_demande profil_seuil_arrondi.duree_pret_mois
      = (857/20, 2193/5000) := hend
  have hhist' : calculer_score_historique profil_seuil_arrondi.incidents_paiement_12m
      = 100 := hhist
  have hstab' : calculer_score_stabilite profil_seuil_arrondi.anciennete_emploi
      profil_seuil_arrondi.age = 100 := hstab
  have hpair : (calculer_score_risque profil_seuil_arrondi).score_global =
      roundTo (31999/400) 2 ∧
      (calculer_score_risque profil_seuil_arrondi).niveau_risque =
        chercherNiveau (31999/400) SEUILS_RISQUE := by
    simp only [calculer_score_risque]
    rw [hend', hhist', hstab', hcoh]
    norm_num [poids_ratio_endettement, poids_historique_paiement,
      poids_stabilite_pro, poids_coherence_montant]
  have hscore : (calculer_score_risque profil_seuil_arrondi).score_global = 80 := by
    rw [hpair.1, @roundTo_eq (31999/400 : ℚ) 2 8000 (by norm_num) (by norm_num)]
    norm_num
  refine ⟨hscore, ?_, ?_⟩
  · rw [hpair.2]
    norm_num [chercherNiveau, SEUILS_RISQUE]
  · rw [hscore]
    norm_num [chercherNiveau, SEUILS_RISQUE]

end RiskGuard
